import Mathlib

/-!
Verification of the PDF viewer application's OCR/text pipeline.

Shallow embedding of:
- `lib/pdf/paths.py`  (rel_from, make_converted_path, make_text_path)
- `lib/pdf/info.py`   (quick_pdf_info)
- `lib/pdf/ocr.py`    (run_ocr, _run_cli)
- `pages/20_PDF_OCR変換.py` (the OCR execution loop and the text-export loop)

Paths are modelled as lists of components (`PathT`); Python `pathlib`
stem/suffix handling is modelled on the character list of the file name.
Python floats are modelled as rationals; machine behaviour of the external
PDF/OCR libraries is modelled as oracles supplied in the environment.
-/

/-! ## Path model (lib/pdf/paths.py) -/

/-- A filesystem path as its list of components (as in `pathlib.PurePath.parts`). -/
abbrev PathT := List String

/-- Python `p.relative_to(base)`: strips `base` from the front of `p`,
`none` models the `ValueError` raised when `p` is not below `base`. -/
def relTo : PathT → PathT → Option PathT
  | p, [] => some p
  | [], _ :: _ => none
  | x :: xs, b :: bs => if x = b then relTo xs bs else none

/-- Python `p.name`: the last path component. -/
def pathName (p : PathT) : String := p.getLastD ""

/-- Python `p.with_name(n)`: replace the last component. -/
def withName (p : PathT) (n : String) : PathT := p.dropLast ++ [n]

/-- Index of the last dot character of a file name, if any. -/
def rfindDot : List Char → Option Nat
  | [] => none
  | c :: cs =>
    match rfindDot cs with
    | some i => some (i + 1)
    | none => if c = '.' then some 0 else none

/-- Python `PurePath.stem` of a file name: the name without its final
extension; a dot at position 0 or at the end does not start an extension. -/
def pyStem (s : String) : String :=
  match rfindDot s.data with
  | some i => if 0 < i ∧ i + 1 < s.data.length then ⟨s.data.take i⟩ else s
  | none => s

/-- Python `PurePath.suffix` of a file name. -/
def pySuffix (s : String) : String :=
  match rfindDot s.data with
  | some i => if 0 < i ∧ i + 1 < s.data.length then ⟨s.data.drop i⟩ else ""
  | none => ""

/-- Python `p.with_suffix(suf)`: stem of the last component plus `suf`. -/
def withSuffix (p : PathT) (suf : String) : PathT :=
  withName p (pyStem (pathName p) ++ suf)

/-- Python `s.endswith(t)` on file-name strings. -/
def pyEndsWith (s t : String) : Bool := decide (t.data <:+ s.data)

/-- `make_converted_path` from `lib/pdf/paths.py`: relative structure of
`src_path` below `src_root` carried over to `dst_root`, file name becomes
`<stem>_converted.pdf`; a source outside `src_root` contributes only its name. -/
def make_converted_path (src_path src_root dst_root : PathT) : PathT :=
  let rel := (relTo src_path src_root).getD [pathName src_path]
  withName (dst_root ++ rel) (pyStem (pathName src_path) ++ "_converted.pdf")

/-- `make_text_path` from `lib/pdf/paths.py`: try `source_pdf` relative to
`src_root`, then to `dst_root`, else flat under `txt_root`; then `.with_suffix(".txt")`. -/
def make_text_path (source_pdf src_root dst_root txt_root : PathT) : PathT :=
  let base :=
    match relTo source_pdf src_root with
    | some rel => txt_root ++ rel
    | none =>
      match relTo source_pdf dst_root with
      | some rel => txt_root ++ rel
      | none => txt_root ++ [pathName source_pdf]
  withSuffix base ".txt"

/-! ## Classifier model (lib/pdf/info.py, quick_pdf_info) -/

/-- Oracle for an opened PDF document: its page count and, per page index,
the text PyMuPDF extracts (`none` models `load_page`/`get_text` raising). -/
structure PdfDoc where
  pageCount : Nat
  pageText : Nat → Option String

/-- Length of Python `s.strip()` for an extracted page text. -/
def strippedLen (s : String) : Nat :=
  ((s.data.dropWhile Char.isWhitespace).reverse.dropWhile Char.isWhitespace).length

/-- One sampled page counts as textful when extraction succeeded and the
stripped text has at least 20 characters; a raised extraction is swallowed
and counted as non-textful. -/
def isTextful : Option String → Bool
  | none => false
  | some s => decide (20 ≤ strippedLen s)

/-- Number of textful pages among the first `k` pages of `d`. -/
def textPagesCount (d : PdfDoc) (k : Nat) : Nat :=
  ((List.range k).filter (fun i => isTextful (d.pageText i))).length

/-- Python `check = min(sample_pages, max(n, 1))` from `quick_pdf_info`. -/
def checkedPages (pageCount : Nat) (sample_pages : Int) : Int :=
  min sample_pages (max (pageCount : Int) 1)

/-- Result dictionary of `quick_pdf_info`. -/
structure PdfInfo where
  pages : Nat
  kind : String
  text_ratio : ℚ
  checked : Int
deriving DecidableEq

/-- `quick_pdf_info` from `lib/pdf/info.py`. The `doc` argument is the
outcome of `fitz.open`: `none` models the open raising. The returned `kind`
is `"テキストPDF"` (TEXT_PDF) or `"画像PDF"` (IMAGE_PDF). Python's true
division `text_pages / max(check, 1)` is the exact rational
`Rat.divInt text_pages (max check 1)` (`Rat.divInt_eq_div`). -/
def quick_pdf_info (doc : Option PdfDoc) (sample_pages : Int)
    (text_ratio_threshold : ℚ) : PdfInfo :=
  match doc with
  | none => ⟨0, "画像PDF", 0, 0⟩
  | some d =>
    let check := checkedPages d.pageCount sample_pages
    let text_pages := textPagesCount d check.toNat
    let ratio : ℚ := Rat.divInt (text_pages : Int) (max check 1)
    ⟨d.pageCount,
     if text_ratio_threshold ≤ ratio then "テキストPDF" else "画像PDF",
     ratio, check⟩

/-- Replace the extraction outcome of page `i0` of a document. -/
def setPageText (d : PdfDoc) (i0 : Nat) (v : Option String) : PdfDoc :=
  ⟨d.pageCount, fun i => if i = i0 then v else d.pageText i⟩

/-! ## OCR engine model (lib/pdf/ocr.py) -/

/-- Environment oracle for one `run_ocr` invocation: the outcome of the
in-process `ocrmypdf.ocr` call (tier 1), the result of `shutil.which("ocrmypdf")`,
and the captured outcome of the CLI subprocess (tier 2). -/
structure OcrEnv where
  pythonResult : Except String Unit
  cliExe : Option String
  procReturncode : Int
  procStdout : String
  procStderr : String

/-- Python `a or b` on strings: `b` when `a` is empty. -/
def pyOrS (a b : String) : String := if a = "" then b else a

/-- The `_run_cli` fallback tier from `lib/pdf/ocr.py`: fails at once when the
executable is absent; otherwise fails iff the subprocess exit code is nonzero,
with message `stderr or stdout or "ocrmypdf 実行に失敗しました。"`. -/
def _run_cli (env : OcrEnv) : Except String Unit :=
  match env.cliExe with
  | none => .error "ocrmypdf が見つかりません。"
  | some _ =>
    if env.procReturncode ≠ 0 then
      .error (pyOrS env.procStderr (pyOrS env.procStdout "ocrmypdf 実行に失敗しました。"))
    else .ok ()

/-- `run_ocr` from `lib/pdf/ocr.py`: the Python-API tier, with any exception
caught and the CLI tier run instead. -/
def run_ocr (env : OcrEnv) : Except String Unit :=
  match env.pythonResult with
  | .ok _ => .ok ()
  | .error _ => _run_cli env

/-! ## Batch loops (pages/20_PDF_OCR変換.py) -/

/-- One planned OCR row: its source path shown relative to the root, whether
the destination already exists at execution time, and the environment the
`run_ocr` call for it runs in. -/
structure OcrTask where
  srcRel : String
  dstExists : Bool
  env : OcrEnv

/-- Aggregate counters of a batch loop. -/
abbrev Counts := Nat × Nat × Nat

/-- One iteration of the OCR execution loop: skip when the destination exists
and overwrite is off, else call `run_ocr`, counting and logging the outcome. -/
def ocrStep (overwrite : Bool) (st : Counts × List String) (t : OcrTask) :
    Counts × List String :=
  match st with
  | ((ok, ng, skip), logs) =>
    if t.dstExists && !overwrite then
      ((ok, ng, skip + 1), logs ++ ["⏭️ スキップ: " ++ t.srcRel])
    else
      match run_ocr t.env with
      | .ok _ => ((ok + 1, ng, skip), logs ++ ["✅ 完了: " ++ t.srcRel])
      | .error e => ((ok, ng + 1, skip), logs ++ ["❌ 失敗: " ++ t.srcRel ++ " : " ++ e])

/-- The OCR execution loop (`for r in rows` under the `do_convert` button),
starting from counters `0, 0, 0` and an empty log. -/
def runOcrBatch (overwrite : Bool) (tasks : List OcrTask) : Counts × List String :=
  tasks.foldl (ocrStep overwrite) ((0, 0, 0), [])

/-- Environment oracle of the text-export loop: which candidate source PDFs
exist on disk, and what `extract_text_pdf` returns for a chosen source
(its sidecar fallback already folded into the oracle result). -/
structure ExportEnv where
  pdfExists : PathT → Bool
  extractText : PathT → String

/-- Source selection of the text-export loop: prefer the converted PDF unless
the file itself is a converted one, falling back to the original when the
candidate does not exist on disk. -/
def exportSrc (env : ExportEnv) (src_root dst_root : PathT) (p : PathT) : PathT :=
  let s0 := if pyEndsWith (pyStem (pathName p)) "_converted" then p
            else make_converted_path p src_root dst_root
  if env.pdfExists s0 then s0 else p

/-- Target `.txt` path the text-export loop computes for input `p`. -/
def exportTxtPath (env : ExportEnv) (src_root dst_root txt_root : PathT)
    (p : PathT) : PathT :=
  make_text_path (exportSrc env src_root dst_root p) src_root dst_root txt_root

/-- One iteration of the text-export loop over the state
(text files on disk, `(text_ok, text_skip, text_ng)`). -/
def textExportStep (env : ExportEnv) (src_root dst_root txt_root : PathT)
    (st : (PathT → Option String) × Counts) (p : PathT) :
    (PathT → Option String) × Counts :=
  match st with
  | (fs, (ok, skip, ng)) =>
    let txtPath := exportTxtPath env src_root dst_root txt_root p
    match fs txtPath with
    | some _ => (fs, (ok, skip + 1, ng))
    | none =>
      let txt := env.extractText (exportSrc env src_root dst_root p)
      if txt = "" then (fs, (ok, skip, ng + 1))
      else (fun q => if q = txtPath then some txt else fs q, (ok + 1, skip, ng))

/-- The text-export loop (`for p in src_files` under the text-save button),
over an initial text-file store `fs0`. -/
def runTextExport (env : ExportEnv) (src_root dst_root txt_root : PathT)
    (fs0 : PathT → Option String) (files : List PathT) :
    (PathT → Option String) × Counts :=
  files.foldl (textExportStep env src_root dst_root txt_root) (fs0, (0, 0, 0))

/-! ## Concrete instances used by witnesses and counterexamples -/

/-- A document with no pages; any page load raises. -/
def pdfDocEmpty : PdfDoc := ⟨0, fun _ => none⟩

/-- A 20-character page text (textful: stripped length is exactly 20). -/
def txt20 : String := "aaaaaaaaaaaaaaaaaaaa"

/-- Six pages, the first two textful. -/
def d6two : PdfDoc := ⟨6, fun i => if i < 2 then some txt20 else none⟩

/-- Six pages, only the first textful. -/
def d6one : PdfDoc := ⟨6, fun i => if i < 1 then some txt20 else none⟩

/-- Both OCR tiers fail, with empty stderr and stdout from the subprocess. -/
def envBothFailSilent : OcrEnv := ⟨.error "api failed", some "/usr/bin/ocrmypdf", 1, "", ""⟩

/-- The in-process tier fails and no CLI executable is on the search path. -/
def envNoCli : OcrEnv := ⟨.error "import failed", none, 0, "", ""⟩

/-- Both tiers are available and the in-process tier succeeds. -/
def envPyOk : OcrEnv := ⟨.ok (), none, 0, "", ""⟩

/-! ## Path lemmas -/

lemma relTo_append (base r : PathT) : relTo (base ++ r) base = some r := by
  induction base with
  | nil => simp [relTo]
  | cons b bs ih => simp [relTo, ih]

lemma relTo_eq_some (p base r : PathT) (h : relTo p base = some r) : p = base ++ r := by
  induction base generalizing p with
  | nil =>
    simp only [relTo, Option.some.injEq] at h
    subst h
    simp
  | cons b bs ih =>
    cases p with
    | nil => simp [relTo] at h
    | cons x xs =>
      by_cases hx : x = b
      · subst hx
        simp only [relTo, if_pos rfl] at h
        simpa using ih xs h
      · simp [relTo, hx] at h

lemma relTo_eq_none_iff (p base : PathT) : relTo p base = none ↔ ∀ r, p ≠ base ++ r := by
  constructor
  · intro h r heq
    rw [heq, relTo_append] at h
    cases h
  · intro h
    cases hrel : relTo p base with
    | none => rfl
    | some r => exact absurd (relTo_eq_some p base r hrel) (h r)

lemma pathName_concat (A : PathT) (n : String) : pathName (A ++ [n]) = n := by
  simp [pathName, List.getLastD_concat]

lemma withName_concat (A : PathT) (x n : String) : withName (A ++ [x]) n = A ++ [n] := by
  simp [withName, List.dropLast_concat]

lemma rfindDot_append (xs : List Char) {ys : List Char} {i : Nat}
    (h : rfindDot ys = some i) : rfindDot (xs ++ ys) = some (xs.length + i) := by
  induction xs with
  | nil => simpa using h
  | cons c cs ih =>
    rw [List.cons_append]
    simp only [rfindDot, ih, List.length_cons]
    congr 1
    omega

lemma string_ne_empty_iff (x : String) : x ≠ "" ↔ 0 < x.data.length := by
  constructor
  · intro h
    cases hd : x.data with
    | nil => exact absurd (String.ext (by simp [hd] : x.data = "".data)) h
    | cons c cs => simp [hd]
  · intro h he
    rw [he] at h
    simp at h

lemma pyStem_append (x tail : String) (i : Nat) (hr : rfindDot tail.data = some i)
    (h0 : 0 < x.data.length + i) (h1 : i + 1 < tail.data.length) :
    pyStem (x ++ tail) = ⟨x.data ++ tail.data.take i⟩ := by
  unfold pyStem
  rw [String.data_append, rfindDot_append x.data hr]
  simp only []
  rw [if_pos ⟨h0, by rw [List.length_append]; omega⟩]
  rw [List.take_append i]

lemma pySuffix_append (x tail : String) (i : Nat) (hr : rfindDot tail.data = some i)
    (h0 : 0 < x.data.length + i) (h1 : i + 1 < tail.data.length) :
    pySuffix (x ++ tail) = ⟨tail.data.drop i⟩ := by
  unfold pySuffix
  rw [String.data_append, rfindDot_append x.data hr]
  simp only []
  rw [if_pos ⟨h0, by rw [List.length_append]; omega⟩]
  rw [List.drop_append i]

lemma pyStem_dot_pdf (x : String) (hx : x ≠ "") : pyStem (x ++ ".pdf") = x := by
  have h0 : 0 < x.data.length + 0 := by
    have := (string_ne_empty_iff x).1 hx
    omega
  rw [pyStem_append x ".pdf" 0 rfl h0 (by decide)]
  exact String.ext (by simp)

lemma pyStem_converted_pdf (x : String) :
    pyStem (x ++ "_converted.pdf") = x ++ "_converted" := by
  rw [pyStem_append x "_converted.pdf" 10 rfl (by omega) (by decide)]
  apply String.ext
  rw [String.data_append]
  rfl

lemma pySuffix_dot_txt (x : String) (hx : x ≠ "") : pySuffix (x ++ ".txt") = ".txt" := by
  have h0 : 0 < x.data.length + 0 := by
    have := (string_ne_empty_iff x).1 hx
    omega
  rw [pySuffix_append x ".txt" 0 rfl h0 (by decide)]
  rfl

/-! ## Claims about path derivation -/

/-- C5: for a source file `pdfRoot/rel/name.pdf`, `make_converted_path` yields
`convertedRoot/rel/name_converted.pdf`, and `make_text_path` applied to that
converted path (which lies under `convertedRoot` and not under `pdfRoot`) with
roots `(pdfRoot, convertedRoot, textRoot)` yields `textRoot/rel/name_converted.txt`. -/
theorem converted_text_roundtrip
    (pdfRoot convertedRoot textRoot rel : PathT) (name : String)
    (hname : name ≠ "")
    (hnot : ∀ q, convertedRoot ++ rel ++ [name ++ "_converted.pdf"] ≠ pdfRoot ++ q) :
    make_converted_path (pdfRoot ++ rel ++ [name ++ ".pdf"]) pdfRoot convertedRoot
        = convertedRoot ++ rel ++ [name ++ "_converted.pdf"] ∧
    make_text_path (convertedRoot ++ rel ++ [name ++ "_converted.pdf"])
        pdfRoot convertedRoot textRoot
        = textRoot ++ rel ++ [name ++ "_converted.txt"] := by
  constructor
  · have h1 : relTo (pdfRoot ++ rel ++ [name ++ ".pdf"]) pdfRoot
        = some (rel ++ [name ++ ".pdf"]) := by
      rw [List.append_assoc]
      exact relTo_append _ _
    simp only [make_converted_path, h1, Option.getD_some]
    rw [pathName_concat (pdfRoot ++ rel) (name ++ ".pdf"), pyStem_dot_pdf name hname]
    rw [← List.append_assoc]
    exact withName_concat _ _ _
  · have h0 : relTo (convertedRoot ++ rel ++ [name ++ "_converted.pdf"]) pdfRoot = none :=
      (relTo_eq_none_iff _ _).2 hnot
    have h2 : relTo (convertedRoot ++ rel ++ [name ++ "_converted.pdf"]) convertedRoot
        = some (rel ++ [name ++ "_converted.pdf"]) := by
      rw [List.append_assoc]
      exact relTo_append _ _
    simp only [make_text_path, h0, h2, withSuffix]
    rw [← List.append_assoc]
    rw [pathName_concat (textRoot ++ rel) (name ++ "_converted.pdf")]
    rw [pyStem_converted_pdf name]
    rw [withName_concat]
    have hstr : (name ++ "_converted") ++ ".txt" = name ++ "_converted.txt" := by
      apply String.ext
      rw [String.data_append, String.data_append, String.data_append, List.append_assoc]
      rfl
    rw [hstr]

/-- Witness for C5 at `pdfRoot = data/pdf`, `rel = 2024/a`, `name = report`,
`convertedRoot = data/conv`, `textRoot = data/text`. -/
theorem converted_text_roundtrip_w :
    make_converted_path ["data", "pdf", "2024", "a", "report.pdf"] ["data", "pdf"]
        ["data", "conv"] = ["data", "conv", "2024", "a", "report_converted.pdf"] ∧
    make_text_path ["data", "conv", "2024", "a", "report_converted.pdf"] ["data", "pdf"]
        ["data", "conv"] ["data", "text"]
        = ["data", "text", "2024", "a", "report_converted.txt"] :=
  converted_text_roundtrip ["data", "pdf"] ["data", "conv"] ["data", "text"]
    ["2024", "a"] "report" (by decide)
    (fun q h => by
      injection h with h1 h2
      injection h2 with h3 _
      exact absurd h3 (by decide))

/-- C6: `make_text_path` resolves the source against `pdfRoot` first, then
against `convertedRoot` (`dstRoot`), and for a source under neither root it
returns `textRoot/<basename>` with the extension replaced by `.txt` and no
intermediate subdirectory; in each case the result's extension is `.txt`
(provided the file name has a nonempty stem). -/
theorem make_text_path_resolution (s pdfRoot dstRoot txtRoot : PathT) :
    (∀ (r : PathT) (fn : String), s = pdfRoot ++ r ++ [fn] →
      make_text_path s pdfRoot dstRoot txtRoot = txtRoot ++ r ++ [pyStem fn ++ ".txt"] ∧
      (pyStem fn ≠ "" →
        pySuffix (pathName (make_text_path s pdfRoot dstRoot txtRoot)) = ".txt")) ∧
    ((∀ q, s ≠ pdfRoot ++ q) → ∀ (r : PathT) (fn : String), s = dstRoot ++ r ++ [fn] →
      make_text_path s pdfRoot dstRoot txtRoot = txtRoot ++ r ++ [pyStem fn ++ ".txt"] ∧
      (pyStem fn ≠ "" →
        pySuffix (pathName (make_text_path s pdfRoot dstRoot txtRoot)) = ".txt")) ∧
    ((∀ q, s ≠ pdfRoot ++ q) → (∀ q, s ≠ dstRoot ++ q) →
      make_text_path s pdfRoot dstRoot txtRoot = txtRoot ++ [pyStem (pathName s) ++ ".txt"] ∧
      (pyStem (pathName s) ≠ "" →
        pySuffix (pathName (make_text_path s pdfRoot dstRoot txtRoot)) = ".txt")) := by
  refine ⟨?_, ?_, ?_⟩
  · intro r fn hs
    subst hs
    have h1 : relTo (pdfRoot ++ r ++ [fn]) pdfRoot = some (r ++ [fn]) := by
      rw [List.append_assoc]
      exact relTo_append _ _
    have hpath : make_text_path (pdfRoot ++ r ++ [fn]) pdfRoot dstRoot txtRoot
        = txtRoot ++ r ++ [pyStem fn ++ ".txt"] := by
      simp only [make_text_path, h1, withSuffix]
      rw [← List.append_assoc]
      rw [pathName_concat (txtRoot ++ r) fn]
      exact withName_concat _ _ _
    refine ⟨hpath, fun hfn => ?_⟩
    rw [hpath, pathName_concat (txtRoot ++ r) (pyStem fn ++ ".txt")]
    exact pySuffix_dot_txt _ hfn
  · intro hno r fn hs
    subst hs
    have h0 : relTo (dstRoot ++ r ++ [fn]) pdfRoot = none := (relTo_eq_none_iff _ _).2 hno
    have h1 : relTo (dstRoot ++ r ++ [fn]) dstRoot = some (r ++ [fn]) := by
      rw [List.append_assoc]
      exact relTo_append _ _
    have hpath : make_text_path (dstRoot ++ r ++ [fn]) pdfRoot dstRoot txtRoot
        = txtRoot ++ r ++ [pyStem fn ++ ".txt"] := by
      simp only [make_text_path, h0, h1, withSuffix]
      rw [← List.append_assoc]
      rw [pathName_concat (txtRoot ++ r) fn]
      exact withName_concat _ _ _
    refine ⟨hpath, fun hfn => ?_⟩
    rw [hpath, pathName_concat (txtRoot ++ r) (pyStem fn ++ ".txt")]
    exact pySuffix_dot_txt _ hfn
  · intro hno1 hno2
    have h0 : relTo s pdfRoot = none := (relTo_eq_none_iff _ _).2 hno1
    have h1 : relTo s dstRoot = none := (relTo_eq_none_iff _ _).2 hno2
    have hpath : make_text_path s pdfRoot dstRoot txtRoot
        = txtRoot ++ [pyStem (pathName s) ++ ".txt"] := by
      simp only [make_text_path, h0, h1, withSuffix]
      rw [pathName_concat txtRoot (pathName s)]
      exact withName_concat _ _ _
    refine ⟨hpath, fun hfn => ?_⟩
    rw [hpath, pathName_concat txtRoot (pyStem (pathName s) ++ ".txt")]
    exact pySuffix_dot_txt _ hfn

/-- Witness for C6: a source under `pdfRoot` resolves with its relative
structure, and a source under neither root falls back flat under `txt_root`
with a `.txt` extension. -/
theorem make_text_path_resolution_w :
    make_text_path ["p", "2024", "a.pdf"] ["p"] ["c"] ["t"] = ["t", "2024", "a.txt"] ∧
    pySuffix (pathName (make_text_path ["p", "2024", "a.pdf"] ["p"] ["c"] ["t"])) = ".txt" ∧
    make_text_path ["x", "b.pdf"] ["p"] ["c"] ["t"] = ["t", "b.txt"] :=
  have h1 := (make_text_path_resolution ["p", "2024", "a.pdf"] ["p"] ["c"] ["t"]).1
    ["2024"] "a.pdf" rfl
  have h2 := (make_text_path_resolution ["x", "b.pdf"] ["p"] ["c"] ["t"]).2.2
    (fun q h => by injection h with h3 _; exact absurd h3 (by decide))
    (fun q h => by injection h with h3 _; exact absurd h3 (by decide))
  ⟨h1.1, h1.2 (by decide), h2.1⟩

/-! ## Claims about the classifier -/

lemma textPagesCount_zero_of_oob (d : PdfDoc) (k : Nat)
    (hw : ∀ i, d.pageCount ≤ i → d.pageText i = none) (hk : k ≤ d.pageCount ∨ d.pageCount = 0) :
    d.pageCount = 0 → textPagesCount d k = 0 := by
  intro h0
  unfold textPagesCount
  rw [List.filter_eq_nil_iff.2]
  · rfl
  · intro i _
    rw [hw i (by omega)]
    simp [isTextful]

/-- C1 (amended): the TEXT_PDF/IMAGE_PDF decision agrees with
`textPageRatio >= threshold` for every successfully opened document; in the
open-failure case the result is always IMAGE_PDF with ratio 0, so the
equivalence additionally needs `0 < threshold` there. -/
theorem quick_pdf_info_kind_iff (doc : Option PdfDoc) (sp : Int) (t : ℚ)
    (h : 0 < t ∨ doc ≠ none) :
    (quick_pdf_info doc sp t).kind = "テキストPDF" ↔
      t ≤ (quick_pdf_info doc sp t).text_ratio := by
  cases doc with
  | some d =>
    simp only [quick_pdf_info]
    by_cases hR : t ≤ Rat.divInt ((textPagesCount d (checkedPages d.pageCount sp).toNat : Nat) : Int)
        (max (checkedPages d.pageCount sp) 1)
    · simp [hR]
    · simp [hR]
  | none =>
    have ht : 0 < t := by
      rcases h with ht | hn
      · exact ht
      · exact absurd rfl hn
    simp only [quick_pdf_info]
    constructor
    · intro hk
      exact absurd hk (by decide)
    · intro hle
      exact absurd hle ht.not_le

/-- Witness for C1: at threshold 3/10 and an unopenable document the
equivalence holds (both sides false). -/
theorem quick_pdf_info_kind_iff_w :
    (quick_pdf_info none 6 (Rat.divInt 3 10)).kind = "テキストPDF" ↔
      Rat.divInt 3 10 ≤ (quick_pdf_info none 6 (Rat.divInt 3 10)).text_ratio :=
  quick_pdf_info_kind_iff none 6 (Rat.divInt 3 10) (Or.inl (by decide))

/-- Counterexample to C1 as stated: with threshold 0 and a document that
cannot be opened, the kind is IMAGE_PDF although ratio 0 >= threshold 0. -/
theorem quick_pdf_info_kind_iff_ce :
    ¬ ((quick_pdf_info none 6 0).kind = "テキストPDF" ↔
        (0 : ℚ) ≤ (quick_pdf_info none 6 0).text_ratio) := by decide

/-- C2 (amended): for a document that opens with page count `n <= 0` (0 in the
model), the ratio is 0 for every samplePages and threshold, and the kind is
IMAGE_PDF provided the threshold is positive (with threshold <= 0 the code
classifies TEXT_PDF, since it compares `ratio >= threshold`). -/
theorem quick_pdf_info_zero_pages (d : PdfDoc) (sp : Int) (t : ℚ)
    (hw : ∀ i, d.pageCount ≤ i → d.pageText i = none) (h0 : d.pageCount = 0) :
    (quick_pdf_info (some d) sp t).text_ratio = 0 ∧
    (0 < t → (quick_pdf_info (some d) sp t).kind = "画像PDF") := by
  have htp : textPagesCount d (checkedPages d.pageCount sp).toNat = 0 :=
    textPagesCount_zero_of_oob d _ hw (Or.inr h0) h0
  have hratio : (quick_pdf_info (some d) sp t).text_ratio = 0 := by
    simp only [quick_pdf_info, htp, Nat.cast_zero, Rat.zero_divInt]
  refine ⟨hratio, fun ht => ?_⟩
  have hcond : ¬ (t ≤ Rat.divInt ((textPagesCount d (checkedPages d.pageCount sp).toNat : Nat) : Int)
      (max (checkedPages d.pageCount sp) 1)) := by
    intro hle
    rw [htp] at hle
    simp only [Nat.cast_zero, Rat.zero_divInt] at hle
    exact absurd hle ht.not_le
  simp only [quick_pdf_info, if_neg hcond]

/-- Witness for C2 at a concrete empty document with a positive threshold. -/
theorem quick_pdf_info_zero_pages_w :
    (quick_pdf_info (some pdfDocEmpty) 6 (Rat.divInt 3 10)).text_ratio = 0 ∧
    (quick_pdf_info (some pdfDocEmpty) 6 (Rat.divInt 3 10)).kind = "画像PDF" :=
  have h := quick_pdf_info_zero_pages pdfDocEmpty 6 (Rat.divInt 3 10) (fun _ _ => rfl) rfl
  ⟨h.1, h.2 (by decide)⟩

/-- Counterexample to C2 as stated: at page count 0 and threshold 0 the code
returns TEXT_PDF, not IMAGE_PDF, because ratio 0 >= threshold 0. -/
theorem quick_pdf_info_zero_pages_ce :
    ¬ ((quick_pdf_info (some pdfDocEmpty) 6 0).kind = "画像PDF") := by decide

/-- C3: `quick_pdf_info` never raises: an open failure yields IMAGE_PDF with
ratio 0, 0 total pages and 0 sampled pages; and a per-page extraction failure
is counted exactly like a successfully extracted empty page (non-textful),
without affecting the rest of the scan. -/
theorem quick_pdf_info_total :
    (∀ (sp : Int) (t : ℚ), quick_pdf_info none sp t = ⟨0, "画像PDF", 0, 0⟩) ∧
    (∀ (d : PdfDoc) (i0 : Nat) (sp : Int) (t : ℚ),
      quick_pdf_info (some (setPageText d i0 none)) sp t
        = quick_pdf_info (some (setPageText d i0 (some ""))) sp t) := by
  constructor
  · intro sp t
    rfl
  · intro d i0 sp t
    have hcount : ∀ k, textPagesCount (setPageText d i0 none) k
        = textPagesCount (setPageText d i0 (some "")) k := by
      intro k
      unfold textPagesCount
      refine congrArg List.length (List.filter_congr ?_)
      intro i _
      simp only [setPageText]
      by_cases hii : i = i0
      · subst hii
        simp only [if_pos rfl]
        rfl
      · simp [hii]
    have hpc : (setPageText d i0 none).pageCount = (setPageText d i0 (some "")).pageCount := rfl
    simp only [quick_pdf_info]
    rw [hpc, hcount]

/-- Ceiling of the boundary ratio 3/10 * 6 used by the C4 witness. -/
lemma ceil_three_tenths_six : ⌈Rat.divInt 3 10 * ((6 : Nat) : ℚ)⌉ = 2 := by
  have h : Rat.divInt 3 10 * ((6 : Nat) : ℚ) = (9 : ℚ) / 5 := by
    rw [Rat.divInt_eq_div]
    norm_num
  rw [h, Int.ceil_eq_iff]
  norm_num

/-- C4: when `quick_pdf_info` samples all `n >= 1` pages of a document with
threshold `0 < t <= 1`, exactly `ceil(t * n)` textful pages classify as
TEXT_PDF and exactly `ceil(t * n) - 1` textful pages classify as IMAGE_PDF. -/
theorem quick_pdf_info_threshold_boundary (d : PdfDoc) (t : ℚ)
    (hn : 1 ≤ d.pageCount) (ht0 : 0 < t) (ht1 : t ≤ 1) :
    ((textPagesCount d d.pageCount : Int) = ⌈t * (d.pageCount : ℚ)⌉ →
      (quick_pdf_info (some d) (d.pageCount : Int) t).kind = "テキストPDF") ∧
    ((textPagesCount d d.pageCount : Int) = ⌈t * (d.pageCount : ℚ)⌉ - 1 →
      (quick_pdf_info (some d) (d.pageCount : Int) t).kind = "画像PDF") := by
  have hcheck : checkedPages d.pageCount (d.pageCount : Int) = (d.pageCount : Int) := by
    unfold checkedPages
    omega
  have htoNat : ((d.pageCount : Int)).toNat = d.pageCount := by omega
  have hmax : max ((d.pageCount : Int)) 1 = (d.pageCount : Int) := by omega
  have hpos : (0 : ℚ) < (d.pageCount : ℚ) := by
    have h1 : 0 < d.pageCount := hn
    exact_mod_cast h1
  have hcond : (t ≤ Rat.divInt ((textPagesCount d d.pageCount : Nat) : Int) (d.pageCount : Int))
      ↔ t ≤ (textPagesCount d d.pageCount : ℚ) / (d.pageCount : ℚ) := by
    rw [Rat.divInt_eq_div]
    push_cast
    rfl
  constructor
  · intro h
    have hle : t ≤ (textPagesCount d d.pageCount : ℚ) / (d.pageCount : ℚ) := by
      rw [le_div_iff₀ hpos]
      have h2 : (textPagesCount d d.pageCount : ℚ) = (⌈t * (d.pageCount : ℚ)⌉ : ℚ) := by
        exact_mod_cast h
      rw [h2]
      exact Int.le_ceil _
    simp only [quick_pdf_info, hcheck, htoNat, hmax]
    rw [if_pos (hcond.2 hle)]
  · intro h
    have hlt : (textPagesCount d d.pageCount : ℚ) / (d.pageCount : ℚ) < t := by
      rw [div_lt_iff₀ hpos]
      have h2 : (textPagesCount d d.pageCount : ℚ) = (⌈t * (d.pageCount : ℚ)⌉ : ℚ) - 1 := by
        exact_mod_cast h
      rw [h2]
      have h3 := Int.ceil_lt_add_one (t * (d.pageCount : ℚ))
      linarith
    simp only [quick_pdf_info, hcheck, htoNat, hmax]
    rw [if_neg (fun hh => (not_le.2 hlt) (hcond.1 hh))]

/-- Witness for C4 at n = 6, t = 3/10: ceil(1.8) = 2 textful pages classify
TEXT_PDF, 1 textful page classifies IMAGE_PDF. -/
theorem quick_pdf_info_threshold_boundary_w :
    (quick_pdf_info (some d6two) 6 (Rat.divInt 3 10)).kind = "テキストPDF" ∧
    (quick_pdf_info (some d6one) 6 (Rat.divInt 3 10)).kind = "画像PDF" :=
  ⟨(quick_pdf_info_threshold_boundary d6two (Rat.divInt 3 10) (by decide) (by decide)
      (by decide)).1
      (by
        show (textPagesCount d6two 6 : Int) = ⌈Rat.divInt 3 10 * ((6 : Nat) : ℚ)⌉
        rw [ceil_three_tenths_six]
        decide),
   (quick_pdf_info_threshold_boundary d6one (Rat.divInt 3 10) (by decide) (by decide)
      (by decide)).2
      (by
        show (textPagesCount d6one 6 : Int) = ⌈Rat.divInt 3 10 * ((6 : Nat) : ℚ)⌉ - 1
        rw [ceil_three_tenths_six]
        decide)⟩

/-! ## Claims about the OCR engine -/

/-- C7 (amended): `run_ocr` fails iff both tiers fail; a failing in-process
tier is never surfaced (the result is then exactly the CLI tier's); the CLI
tier fails immediately when the executable is absent; on a nonzero exit code
the message is the captured stderr, or stdout when stderr is empty and stdout
is not, or a fixed fallback message when both are empty. -/
theorem run_ocr_two_tier (env : OcrEnv) :
    (run_ocr env = .ok () ↔ (env.pythonResult = .ok () ∨ _run_cli env = .ok ())) ∧
    (∀ e, env.pythonResult = .error e → run_ocr env = _run_cli env) ∧
    (env.cliExe = none → _run_cli env = .error "ocrmypdf が見つかりません。") ∧
    (env.cliExe ≠ none → env.procReturncode ≠ 0 → env.procStderr ≠ "" →
      _run_cli env = .error env.procStderr) ∧
    (env.cliExe ≠ none → env.procReturncode ≠ 0 → env.procStderr = "" →
      env.procStdout ≠ "" → _run_cli env = .error env.procStdout) ∧
    (env.cliExe ≠ none → env.procReturncode ≠ 0 → env.procStderr = "" →
      env.procStdout = "" → _run_cli env = .error "ocrmypdf 実行に失敗しました。") := by
  refine ⟨?_, ?_, ?_, ?_, ?_, ?_⟩
  · cases hp : env.pythonResult with
    | ok u =>
      cases u
      simp [run_ocr, hp]
    | error e =>
      simp only [run_ocr, hp]
      constructor
      · intro hc
        exact Or.inr hc
      · intro hc
        rcases hc with hc | hc
        · cases hc
        · exact hc
  · intro e hp
    simp [run_ocr, hp]
  · intro hc
    simp [_run_cli, hc]
  · intro hc hr hs
    cases he : env.cliExe with
    | none => exact absurd he hc
    | some exe => simp [_run_cli, he, hr, pyOrS, hs]
  · intro hc hr hs ho
    cases he : env.cliExe with
    | none => exact absurd he hc
    | some exe => simp [_run_cli, he, hr, pyOrS, hs, ho]
  · intro hc hr hs ho
    cases he : env.cliExe with
    | none => exact absurd he hc
    | some exe => simp [_run_cli, he, hr, pyOrS, hs, ho]

/-- Witness for C7: the in-process tier fails and the result is the CLI
tier's; with no executable the error is the not-found message; with a silent
nonzero exit the error is the fixed fallback message. -/
theorem run_ocr_two_tier_w :
    run_ocr envNoCli = _run_cli envNoCli ∧
    _run_cli envNoCli = .error "ocrmypdf が見つかりません。" ∧
    _run_cli envBothFailSilent = .error "ocrmypdf 実行に失敗しました。" :=
  ⟨(run_ocr_two_tier envNoCli).2.1 "import failed" rfl,
   (run_ocr_two_tier envNoCli).2.2.1 rfl,
   (run_ocr_two_tier envBothFailSilent).2.2.2.2.2 (by decide) (by decide) rfl rfl⟩

/-- Counterexample to C7 as stated: both tiers fail, the subprocess exits
nonzero with empty stderr and stdout, and the raised message is the fixed
fallback text, not the captured (empty) stdout. -/
theorem run_ocr_msg_ce :
    run_ocr envBothFailSilent = .error "ocrmypdf 実行に失敗しました。" ∧
    envBothFailSilent.procStderr = "" ∧
    "ocrmypdf 実行に失敗しました。" ≠ envBothFailSilent.procStdout :=
  ⟨rfl, rfl, by decide⟩

/-! ## Claims about the batch loops -/

/-- C8: in the OCR execution loop a failing `run_ocr` call increments the
failure counter, appends a log line carrying the error message, and the fold
continues with the remaining tasks; in particular a 3-task batch whose second
task fails reports success 2, failure 1, skip 0. -/
theorem ocr_batch_failure_isolation :
    (∀ (ov : Bool) (ok ng skip : Nat) (logs : List String) (t : OcrTask)
        (rest : List OcrTask) (e : String),
      (t.dstExists && !ov) = false → run_ocr t.env = .error e →
      List.foldl (ocrStep ov) ((ok, ng, skip), logs) (t :: rest)
        = List.foldl (ocrStep ov) ((ok, ng + 1, skip),
            logs ++ ["❌ 失敗: " ++ t.srcRel ++ " : " ++ e]) rest) ∧
    (∀ (ov : Bool) (t1 t2 t3 : OcrTask) (e : String),
      (t1.dstExists && !ov) = false → run_ocr t1.env = .ok () →
      (t2.dstExists && !ov) = false → run_ocr t2.env = .error e →
      (t3.dstExists && !ov) = false → run_ocr t3.env = .ok () →
      (runOcrBatch ov [t1, t2, t3]).1 = (2, 1, 0)) := by
  constructor
  · intro ov ok ng skip logs t rest e hskip herr
    rw [List.foldl_cons]
    simp [ocrStep, hskip, herr]
  · intro ov t1 t2 t3 e h1 h2 h3 h4 h5 h6
    simp [runOcrBatch, ocrStep, h1, h2, h3, h4, h5, h6]

/-- Witness for C8: a concrete 3-task batch in which only the middle task's
OCR call fails (no in-process engine, no CLI executable). -/
theorem ocr_batch_failure_isolation_w :
    (runOcrBatch false [⟨"a.pdf", false, envPyOk⟩, ⟨"b.pdf", false, envNoCli⟩,
      ⟨"c.pdf", false, envPyOk⟩]).1 = (2, 1, 0) :=
  ocr_batch_failure_isolation.2 false ⟨"a.pdf", false, envPyOk⟩
    ⟨"b.pdf", false, envNoCli⟩ ⟨"c.pdf", false, envPyOk⟩
    "ocrmypdf が見つかりません。" rfl rfl rfl rfl rfl rfl

lemma textExport_preserves (env : ExportEnv) (sr dr tr : PathT) :
    ∀ (files : List PathT) (fs : PathT → Option String) (cnt : Counts) (q : PathT) (c : String),
      fs q = some c →
      (List.foldl (textExportStep env sr dr tr) (fs, cnt) files).1 q = some c := by
  intro files
  induction files with
  | nil =>
    intro fs cnt q c h
    simpa using h
  | cons p rest ih =>
    intro fs cnt q c h
    obtain ⟨ok, skip, ng⟩ := cnt
    rw [List.foldl_cons]
    cases hfs : fs (exportTxtPath env sr dr tr p) with
    | some x =>
      have hstep : textExportStep env sr dr tr (fs, (ok, skip, ng)) p
          = (fs, (ok, skip + 1, ng)) := by
        simp [textExportStep, hfs]
      rw [hstep]
      exact ih fs _ q c h
    | none =>
      by_cases hx : env.extractText (exportSrc env sr dr p) = ""
      · have hstep : textExportStep env sr dr tr (fs, (ok, skip, ng)) p
            = (fs, (ok, skip, ng + 1)) := by
          simp [textExportStep, hfs, hx]
        rw [hstep]
        exact ih fs _ q c h
      · have hstep : textExportStep env sr dr tr (fs, (ok, skip, ng)) p
            = (fun q2 => if q2 = exportTxtPath env sr dr tr p
                then some (env.extractText (exportSrc env sr dr p)) else fs q2,
               (ok + 1, skip, ng)) := by
          simp [textExportStep, hfs, hx]
        rw [hstep]
        apply ih
        have hne : q ≠ exportTxtPath env sr dr tr p := by
          intro he
          rw [he, hfs] at h
          cases h
        simp [hne, h]

/-- C9: the text-export loop writes a `.txt` only when the target does not
exist and extraction is non-empty: any pre-existing text file is preserved
byte for byte over the whole run; a file whose target exists is skipped with
the store untouched; a file with empty extraction increments the failure
counter with no write. -/
theorem text_export_policy :
    (∀ (env : ExportEnv) (sr dr tr : PathT) (fs0 : PathT → Option String)
        (files : List PathT) (q : PathT) (c : String),
      fs0 q = some c → (runTextExport env sr dr tr fs0 files).1 q = some c) ∧
    (∀ (env : ExportEnv) (sr dr tr : PathT) (fs : PathT → Option String)
        (ok skip ng : Nat) (p : PathT) (rest : List PathT) (x : String),
      fs (exportTxtPath env sr dr tr p) = some x →
      List.foldl (textExportStep env sr dr tr) (fs, (ok, skip, ng)) (p :: rest)
        = List.foldl (textExportStep env sr dr tr) (fs, (ok, skip + 1, ng)) rest) ∧
    (∀ (env : ExportEnv) (sr dr tr : PathT) (fs : PathT → Option String)
        (ok skip ng : Nat) (p : PathT) (rest : List PathT),
      fs (exportTxtPath env sr dr tr p) = none →
      env.extractText (exportSrc env sr dr p) = "" →
      List.foldl (textExportStep env sr dr tr) (fs, (ok, skip, ng)) (p :: rest)
        = List.foldl (textExportStep env sr dr tr) (fs, (ok, skip, ng + 1)) rest) := by
  refine ⟨?_, ?_, ?_⟩
  · intro env sr dr tr fs0 files q c h
    exact textExport_preserves env sr dr tr files fs0 _ q c h
  · intro env sr dr tr fs ok skip ng p rest x hfs
    rw [List.foldl_cons]
    congr 1
    simp [textExportStep, hfs]
  · intro env sr dr tr fs ok skip ng p rest hfs hx
    rw [List.foldl_cons]
    congr 1
    simp [textExportStep, hfs, hx]

/-- Export environment used by the C9 witness: no converted PDFs on disk and
empty extraction everywhere. -/
def wEnvEmpty : ExportEnv := ⟨fun _ => false, fun _ => ""⟩

/-- Text store used by the C9 witness: only `text/a.txt` exists. -/
def wFs (q : PathT) : Option String :=
  if q = ["text", "a.txt"] then some "old" else none

/-- Witness for C9: a pre-existing `text/a.txt` survives the run unchanged
and is counted as a skip; a fresh target with empty extraction is counted as
a failure with no write. -/
theorem text_export_policy_w :
    (runTextExport wEnvEmpty ["root"] ["conv"] ["text"] wFs [["root", "a.pdf"]]).1
        ["text", "a.txt"] = some "old" ∧
    List.foldl (textExportStep wEnvEmpty ["root"] ["conv"] ["text"]) (wFs, (0, 0, 0))
        [["root", "a.pdf"]]
      = List.foldl (textExportStep wEnvEmpty ["root"] ["conv"] ["text"]) (wFs, (0, 1, 0)) [] ∧
    List.foldl (textExportStep wEnvEmpty ["root"] ["conv"] ["text"]) (fun _ => none, (0, 0, 0))
        [["root", "b.pdf"]]
      = List.foldl (textExportStep wEnvEmpty ["root"] ["conv"] ["text"])
          (fun _ => none, (0, 0, 1)) [] :=
  ⟨text_export_policy.1 wEnvEmpty ["root"] ["conv"] ["text"] wFs [["root", "a.pdf"]]
      ["text", "a.txt"] "old" rfl,
   text_export_policy.2.1 wEnvEmpty ["root"] ["conv"] ["text"] wFs 0 0 0 ["root", "a.pdf"]
      [] "old" rfl,
   text_export_policy.2.2 wEnvEmpty ["root"] ["conv"] ["text"] (fun _ => none) 0 0 0
      ["root", "b.pdf"] [] rfl rfl⟩

lemma ocr_counts_sum (ov : Bool) :
    ∀ (tasks : List OcrTask) (ok ng skip : Nat) (logs : List String),
      ((List.foldl (ocrStep ov) ((ok, ng, skip), logs) tasks).1).1
        + ((List.foldl (ocrStep ov) ((ok, ng, skip), logs) tasks).1).2.1
        + ((List.foldl (ocrStep ov) ((ok, ng, skip), logs) tasks).1).2.2
        = ok + ng + skip + tasks.length := by
  intro tasks
  induction tasks with
  | nil =>
    intro ok ng skip logs
    simp
  | cons t rest ih =>
    intro ok ng skip logs
    rw [List.foldl_cons]
    by_cases hb : (t.dstExists && !ov) = true
    · have hstep : ocrStep ov ((ok, ng, skip), logs) t
          = ((ok, ng, skip + 1), logs ++ ["⏭️ スキップ: " ++ t.srcRel]) := by
        simp [ocrStep, hb]
      rw [hstep]
      have h2 := ih ok ng (skip + 1) (logs ++ ["⏭️ スキップ: " ++ t.srcRel])
      rw [h2, List.length_cons]
      omega
    · cases hr : run_ocr t.env with
      | ok u =>
        cases u
        have hstep : ocrStep ov ((ok, ng, skip), logs) t
            = ((ok + 1, ng, skip), logs ++ ["✅ 完了: " ++ t.srcRel]) := by
          simp [ocrStep, hb, hr]
        rw [hstep]
        have h2 := ih (ok + 1) ng skip (logs ++ ["✅ 完了: " ++ t.srcRel])
        rw [h2, List.length_cons]
        omega
      | error e =>
        have hstep : ocrStep ov ((ok, ng, skip), logs) t
            = ((ok, ng + 1, skip), logs ++ ["❌ 失敗: " ++ t.srcRel ++ " : " ++ e]) := by
          simp [ocrStep, hb, hr]
        rw [hstep]
        have h2 := ih ok (ng + 1) skip (logs ++ ["❌ 失敗: " ++ t.srcRel ++ " : " ++ e])
        rw [h2, List.length_cons]
        omega

lemma export_counts_sum (env : ExportEnv) (sr dr tr : PathT) :
    ∀ (files : List PathT) (fs : PathT → Option String) (ok skip ng : Nat),
      ((List.foldl (textExportStep env sr dr tr) (fs, (ok, skip, ng)) files).2).1
        + ((List.foldl (textExportStep env sr dr tr) (fs, (ok, skip, ng)) files).2).2.1
        + ((List.foldl (textExportStep env sr dr tr) (fs, (ok, skip, ng)) files).2).2.2
        = ok + skip + ng + files.length := by
  intro files
  induction files with
  | nil =>
    intro fs ok skip ng
    simp
  | cons p rest ih =>
    intro fs ok skip ng
    rw [List.foldl_cons]
    cases hfs : fs (exportTxtPath env sr dr tr p) with
    | some x =>
      have hstep : textExportStep env sr dr tr (fs, (ok, skip, ng)) p
          = (fs, (ok, skip + 1, ng)) := by
        simp [textExportStep, hfs]
      rw [hstep]
      have h2 := ih fs ok (skip + 1) ng
      rw [h2, List.length_cons]
      omega
    | none =>
      by_cases hx : env.extractText (exportSrc env sr dr p) = ""
      · have hstep : textExportStep env sr dr tr (fs, (ok, skip, ng)) p
            = (fs, (ok, skip, ng + 1)) := by
          simp [textExportStep, hfs, hx]
        rw [hstep]
        have h2 := ih fs ok skip (ng + 1)
        rw [h2, List.length_cons]
        omega
      · have hstep : textExportStep env sr dr tr (fs, (ok, skip, ng)) p
            = (fun q2 => if q2 = exportTxtPath env sr dr tr p
                then some (env.extractText (exportSrc env sr dr p)) else fs q2,
               (ok + 1, skip, ng)) := by
          simp [textExportStep, hfs, hx]
        rw [hstep]
        have h2 := ih (fun q2 => if q2 = exportTxtPath env sr dr tr p
            then some (env.extractText (exportSrc env sr dr p)) else fs q2) (ok + 1) skip ng
        rw [h2, List.length_cons]
        omega

/-- C10: the three counters partition the processed items: after the OCR
execution loop success + failure + skip equals the number of planned tasks,
and after the text-export loop success + skip + failure equals the number of
input files. -/
theorem batch_counters_partition :
    (∀ (ov : Bool) (tasks : List OcrTask),
      ((runOcrBatch ov tasks).1).1 + ((runOcrBatch ov tasks).1).2.1
        + ((runOcrBatch ov tasks).1).2.2 = tasks.length) ∧
    (∀ (env : ExportEnv) (sr dr tr : PathT) (fs0 : PathT → Option String)
        (files : List PathT),
      ((runTextExport env sr dr tr fs0 files).2).1
        + ((runTextExport env sr dr tr fs0 files).2).2.1
        + ((runTextExport env sr dr tr fs0 files).2).2.2 = files.length) := by
  constructor
  · intro ov tasks
    have h := ocr_counts_sum ov tasks 0 0 0 []
    simpa [runOcrBatch] using h
  · intro env sr dr tr fs0 files
    have h := export_counts_sum env sr dr tr files fs0 0 0 0
    simpa [runTextExport] using h
